import Mathlib

/-!
Shallow embedding of the Test Case Generator service (src/main.py).

The program is a single HTTP handler plus a prompt-building helper:

* generate_test_cases (main.py lines 49-59) concatenates a fixed
  instruction template around the submitted code and sends the prompt to
  a remote chat model, returning its text reply;
* upload_and_generate (main.py lines 62-90) resolves the effective code
  string (inline form field wins when non-blank, otherwise the uploaded
  file is staged to the uploads directory and re-read), calls the
  generator, and splits the reply on the first line break into a
  num_test_cases field and a test_cases field, both stripped.

The remote model is a parameter (a function from prompt to reply, which
may fail, standing for the chat session round-trip).  The staging
directory is a map from filename to file text.  The outcome records the
HTTP-level result, the final state of the staging directory, and the
list of prompts actually sent to the remote service.
-/

namespace TestCaseGen

/-- Python whitespace test used by str.strip with no arguments, restricted
to the ASCII whitespace characters (space, tab, line feed, carriage
return, vertical tab, form feed). -/
def pyIsSpace (c : Char) : Bool :=
  c = ' ' || c = '\t' || c = '\n' || c = '\r' || c = '\x0b' || c = '\x0c'

/-- List-level model of Python str.strip(): drop whitespace from the left,
then from the right. -/
def pyStripL (l : List Char) : List Char :=
  ((l.dropWhile pyIsSpace).reverse.dropWhile pyIsSpace).reverse

/-- Model of Python str.strip() on strings. -/
def pyStrip (s : String) : String :=
  String.mk (pyStripL s.data)

/-- Portion of the reply before the first line break; the whole reply when
it has none.  Models result.split with separator line feed and maxsplit
one, index zero (main.py line 84). -/
def splitHead (s : String) : String :=
  String.mk (s.data.takeWhile (fun c => c ≠ '\n'))

/-- Portion of the reply after the first line break.  Models result.split
with separator line feed and maxsplit one, index one (main.py line 85);
the source only evaluates it when the reply contains a line break. -/
def splitTail (s : String) : String :=
  String.mk ((s.data.dropWhile (fun c => c ≠ '\n')).drop 1)

/-- Model of the Python membership test of a line feed in the reply
(main.py line 85). -/
def hasNL (s : String) : Bool :=
  s.data.contains '\n'

/-- An uploaded file: original filename and its contents.  File contents
are modelled as the text the bytes decode to, so the byte write followed
by the text read of main.py lines 72-76 is the identity on contents. -/
structure UploadFile where
  filename : String
  content : String
  deriving DecidableEq

/-- The staging directory (the uploads directory): a map from filename to
the staged file text. -/
def Store : Type := String → Option String

/-- Writing a file into the staging directory under a filename, as done by
main.py lines 71-73 (no collision handling: an existing entry under the
same name is overwritten). -/
def storeWrite (st : Store) (name content : String) : Store :=
  fun n => if n = name then some content else st n

/-- Reading a staged file back as text, as done by main.py lines 75-76. -/
def storeRead (st : Store) (name : String) : Option String :=
  st name

/-- Errors the handler can surface: the HTTP 400 of main.py line 78, a
failure of the remote generation call, and a failure of the staging
read (the latter cannot occur after a successful write in this model,
but is kept so the read is total). -/
inductive ApiError where
  | http (status : Nat) (detail : String)
  | upstream
  | storage
  deriving DecidableEq

/-- The JSON body returned on success (main.py lines 87-90). -/
structure GenResponse where
  num_test_cases : String
  test_cases : String
  deriving DecidableEq

/-- Observable outcome of one request: the HTTP-level result, the final
staging directory, and the prompts sent to the remote service. -/
structure Outcome where
  result : Except ApiError GenResponse
  store : Store
  promptsSent : List String

/-- First string literal of the prompt (main.py line 51). -/
def roleInstr : String :=
  "You are a code testing assistant with knowledge of all programming languages. "

/-- Second string literal of the prompt (main.py line 52). -/
def taskInstr : String :=
  "Please generate test cases for the following code according to the latest industry standards. "

/-- Third string literal of the prompt (main.py line 53). -/
def numberInstr : String :=
  "Generate the test cases with numbers as first test case and what does it do using minimal text. "

/-- Fourth string literal of the prompt (main.py line 54), ending in the
blank line separating the instructions from the code. -/
def windowInstr : String :=
  "Your output will be displayed in a test case output window, so generate accordingly.\n\n"

/-- Closing string literal of the prompt (main.py line 56). -/
def closingInstr : String :=
  "Provide the number of test cases possible followed by the test cases."

/-- The prompt of main.py lines 50-57: the four instruction literals, the
submitted code, a blank line, and the closing instruction. -/
def buildPrompt (code_input : String) : String :=
  roleInstr ++ taskInstr ++ numberInstr ++ windowInstr ++
    code_input ++ "\n\n" ++ closingInstr

/-- Model of generate_test_cases (main.py lines 49-59): build the prompt
and send it over the chat session, whose round-trip behaviour is the
parameter send_message. -/
def generate_test_cases (send_message : String → Except Unit String)
    (code_input : String) : Except Unit String :=
  send_message (buildPrompt code_input)

/-- The reshaping of the model reply into the response body (main.py
lines 84-90): head of the first-line split, tail of the split when the
reply contains a line break and the whole reply otherwise, both
stripped. -/
def formatReply (result : String) : GenResponse :=
  { num_test_cases := pyStrip (splitHead result)
    test_cases := pyStrip (if hasNL result then splitTail result else result) }

/-- Truthiness of the condition on main.py line 68: the code form field is
present, non-empty, and non-empty after stripping. -/
def codeTruthy (code : Option String) : Bool :=
  match code with
  | none => false
  | some s => !(s = "") && !(pyStrip s = "")

/-- Model of the POST handler upload_and_generate (main.py lines 62-90).
When the inline code field is truthy its stripped value is the effective
code; otherwise a present uploaded file is staged under its original
filename and re-read; otherwise HTTP 400.  The effective code is embedded
in the prompt, sent, and the reply is split and stripped. -/
def upload_and_generate (send_message : String → Except Unit String)
    (st : Store) (code : Option String) (file : Option UploadFile) : Outcome :=
  if codeTruthy code then
    let code_input := pyStrip ((code.getD ""))
    match generate_test_cases send_message code_input with
    | Except.error _ =>
        { result := Except.error ApiError.upstream, store := st
          promptsSent := [buildPrompt code_input] }
    | Except.ok result =>
        { result := Except.ok (formatReply result), store := st
          promptsSent := [buildPrompt code_input] }
  else
    match file with
    | some f =>
        let st' := storeWrite st f.filename f.content
        match storeRead st' f.filename with
        | none =>
            { result := Except.error ApiError.storage, store := st', promptsSent := [] }
        | some code_input =>
            match generate_test_cases send_message code_input with
            | Except.error _ =>
                { result := Except.error ApiError.upstream, store := st'
                  promptsSent := [buildPrompt code_input] }
            | Except.ok result =>
                { result := Except.ok (formatReply result), store := st'
                  promptsSent := [buildPrompt code_input] }
    | none =>
        { result := Except.error (ApiError.http 400 "No code or file provided")
          store := st, promptsSent := [] }

/-- Variant of the handler that, in the file branch, takes the effective
code directly from the uploaded contents instead of re-reading the staged
file; written to the words of the specification, which calls the storage
round-trip functionally equivalent to reading the bytes directly while
the write side effect still occurs. -/
def upload_and_generate_direct (send_message : String → Except Unit String)
    (st : Store) (code : Option String) (file : Option UploadFile) : Outcome :=
  if codeTruthy code then
    let code_input := pyStrip ((code.getD ""))
    match generate_test_cases send_message code_input with
    | Except.error _ =>
        { result := Except.error ApiError.upstream, store := st
          promptsSent := [buildPrompt code_input] }
    | Except.ok result =>
        { result := Except.ok (formatReply result), store := st
          promptsSent := [buildPrompt code_input] }
  else
    match file with
    | some f =>
        let st' := storeWrite st f.filename f.content
        match generate_test_cases send_message f.content with
        | Except.error _ =>
            { result := Except.error ApiError.upstream, store := st'
              promptsSent := [buildPrompt f.content] }
        | Except.ok result =>
            { result := Except.ok (formatReply result), store := st'
              promptsSent := [buildPrompt f.content] }
    | none =>
        { result := Except.error (ApiError.http 400 "No code or file provided")
          store := st, promptsSent := [] }

/-- The empty staging directory, used to instantiate the handler on
concrete requests. -/
def emptyStore : Store := fun _ => none

/-- A remote model stub that answers every prompt with a fixed reply. -/
def constSend (reply : String) : String → Except Unit String :=
  fun _ => Except.ok reply

/-- A remote model stub whose call always fails (an upstream failure). -/
def failSend : String → Except Unit String :=
  fun _ => Except.error ()

/-! Helper lemmas about the list-level string operations. -/

/-- Dropping while a predicate holds skips over a leading block on which it
holds everywhere. -/
theorem dropWhile_append_all {p : Char → Bool} (w l : List Char)
    (h : ∀ c ∈ w, p c = true) :
    List.dropWhile p (w ++ l) = List.dropWhile p l := by
  induction w with
  | nil => rfl
  | cons a w ih =>
    rw [List.cons_append, List.dropWhile_cons, if_pos (h a (List.mem_cons_self a w))]
    exact ih (fun c hc => h c (List.mem_cons_of_mem a hc))

/-- Taking while a predicate holds keeps a leading block on which it holds
everywhere. -/
theorem takeWhile_append_all {p : Char → Bool} (w l : List Char)
    (h : ∀ c ∈ w, p c = true) :
    List.takeWhile p (w ++ l) = w ++ List.takeWhile p l := by
  induction w with
  | nil => rfl
  | cons a w ih =>
    rw [List.cons_append, List.takeWhile_cons, if_pos (h a (List.mem_cons_self a w)),
      ih (fun c hc => h c (List.mem_cons_of_mem a hc)), List.cons_append]

/-- Taking while a predicate holds on a list satisfying it everywhere is the
identity. -/
theorem takeWhile_all {p : Char → Bool} (l : List Char)
    (h : ∀ c ∈ l, p c = true) :
    List.takeWhile p l = l := by
  have := takeWhile_append_all l [] h
  simpa using this

/-- When the drop-while of the first block is non-empty, appending happens
after the drop. -/
theorem dropWhile_append_ne_nil {p : Char → Bool} (x y : List Char)
    (h : List.dropWhile p x ≠ []) :
    List.dropWhile p (x ++ y) = List.dropWhile p x ++ y := by
  induction x with
  | nil => exact absurd rfl h
  | cons a x ih =>
    by_cases ha : p a = true
    · rw [List.dropWhile_cons, if_pos ha] at h
      rw [List.cons_append, List.dropWhile_cons, if_pos ha, ih h,
        List.dropWhile_cons, if_pos ha]
    · rw [List.cons_append, List.dropWhile_cons, if_neg ha,
        List.dropWhile_cons, if_neg ha, List.cons_append]

/-- The head of a drop-while result falsifies the predicate. -/
theorem head_dropWhile_not {p : Char → Bool} (l : List Char) (c : Char)
    (h : (List.dropWhile p l).head? = some c) : p c = false := by
  induction l with
  | nil => simp at h
  | cons a l ih =>
    by_cases ha : p a = true
    · rw [List.dropWhile_cons, if_pos ha] at h
      exact ih h
    · rw [List.dropWhile_cons, if_neg ha] at h
      simp only [List.head?_cons, Option.some.injEq] at h
      subst h
      exact Bool.eq_false_iff.mpr ha

/-- A non-empty drop-while result keeps the last element of the list. -/
theorem getLast_dropWhile_ne_nil {p : Char → Bool} (l : List Char)
    (h : List.dropWhile p l ≠ []) :
    (List.dropWhile p l).getLast? = l.getLast? := by
  induction l with
  | nil => simp at h
  | cons a l ih =>
    by_cases ha : p a = true
    · rw [List.dropWhile_cons, if_pos ha] at h ⊢
      have hl : l ≠ [] := by
        intro hnil
        rw [hnil] at h
        exact h rfl
      rw [ih h]
      obtain ⟨b, t, rfl⟩ := List.exists_cons_of_ne_nil hl
      exact (List.getLast?_cons_cons).symm
    · rw [List.dropWhile_cons, if_neg ha]

/-- Stripping is unchanged by a leading all-whitespace block. -/
theorem pyStripL_ws_left (w l : List Char) (hw : ∀ c ∈ w, pyIsSpace c = true) :
    pyStripL (w ++ l) = pyStripL l := by
  unfold pyStripL
  rw [dropWhile_append_all w l hw]

/-- Stripping is unchanged by a trailing all-whitespace block. -/
theorem pyStripL_ws_right (l w : List Char) (hw : ∀ c ∈ w, pyIsSpace c = true) :
    pyStripL (l ++ w) = pyStripL l := by
  unfold pyStripL
  cases hdl : List.dropWhile pyIsSpace l with
  | nil =>
    have hl : ∀ c ∈ l, pyIsSpace c = true := List.dropWhile_eq_nil_iff.mp hdl
    have hww : List.dropWhile pyIsSpace w = [] := List.dropWhile_eq_nil_iff.mpr hw
    rw [dropWhile_append_all l w hl, hww]
  | cons a t =>
    have hne : List.dropWhile pyIsSpace l ≠ [] := by rw [hdl]; simp
    rw [dropWhile_append_ne_nil l w hne, hdl, List.reverse_append,
      dropWhile_append_all _ _ (fun c hc => hw c (List.mem_reverse.mp hc))]

/-- Taking up to the first line feed never looks past an explicit line
feed. -/
theorem takeWhile_ne_nl_append (u v : List Char) :
    List.takeWhile (fun c => c ≠ '\n') (u ++ '\n' :: v)
      = List.takeWhile (fun c => c ≠ '\n') u := by
  induction u with
  | nil =>
    rw [List.nil_append, List.takeWhile_cons_of_neg] <;> simp
  | cons a u ih =>
    by_cases ha : a = '\n'
    · subst ha
      rw [List.cons_append, List.takeWhile_cons_of_neg, List.takeWhile_cons_of_neg] <;> simp
    · have hcond : (fun c => decide (c ≠ '\n')) a = true := by simpa using ha
      rw [List.cons_append, List.takeWhile_cons_of_pos (p := fun c => decide (c ≠ '\n')) hcond,
        List.takeWhile_cons_of_pos (p := fun c => decide (c ≠ '\n')) hcond, ih]

/-- Dropping one character past the first line feed of an all-whitespace
block followed by an explicit line feed leaves an all-whitespace block in
front of the remainder. -/
theorem drop_one_dropWhile_ne_nl (u v : List Char)
    (hu : ∀ c ∈ u, pyIsSpace c = true) :
    ∃ w : List Char, (∀ c ∈ w, pyIsSpace c = true) ∧
      (List.dropWhile (fun c => c ≠ '\n') (u ++ '\n' :: v)).drop 1 = w ++ v := by
  induction u with
  | nil =>
    refine ⟨[], by simp, ?_⟩
    rw [List.nil_append, List.dropWhile_cons_of_neg] <;> simp
  | cons a u ih =>
    by_cases ha : a = '\n'
    · subst ha
      refine ⟨u ++ ['\n'], ?_, ?_⟩
      · intro c hc
        rcases List.mem_append.mp hc with h1 | h1
        · exact hu c (List.mem_cons_of_mem _ h1)
        · simp only [List.mem_singleton] at h1
          subst h1
          rfl
      · rw [List.cons_append, List.dropWhile_cons_of_neg] <;> simp [List.append_assoc]
    · obtain ⟨w, hw, heq⟩ := ih (fun c hc => hu c (List.mem_cons_of_mem a hc))
      refine ⟨w, hw, ?_⟩
      have hcond : (fun c => decide (c ≠ '\n')) a = true := by simpa using ha
      rw [List.cons_append, List.dropWhile_cons_of_pos (p := fun c => decide (c ≠ '\n')) hcond]
      exact heq

/-- Membership survives stripping. -/
theorem mem_of_mem_pyStripL (l : List Char) (c : Char) (h : c ∈ pyStripL l) :
    c ∈ l := by
  unfold pyStripL at h
  rw [List.mem_reverse] at h
  have h2 := (List.dropWhile_sublist pyIsSpace).mem h
  rw [List.mem_reverse] at h2
  exact (List.dropWhile_sublist pyIsSpace).mem h2

/-- The last character of a stripped list is not whitespace. -/
theorem pyStripL_getLast_not_space (l : List Char) (c : Char)
    (h : (pyStripL l).getLast? = some c) : pyIsSpace c = false := by
  unfold pyStripL at h
  rw [List.getLast?_reverse] at h
  exact head_dropWhile_not _ _ h

/-- The first character of a stripped list is not whitespace. -/
theorem pyStripL_head_not_space (l : List Char) (c : Char)
    (h : (pyStripL l).head? = some c) : pyIsSpace c = false := by
  unfold pyStripL at h
  rw [List.head?_reverse] at h
  by_cases hnil :
      List.dropWhile pyIsSpace (List.dropWhile pyIsSpace l).reverse = []
  · rw [hnil] at h
    simp at h
  · rw [getLast_dropWhile_ne_nil _ hnil, List.getLast?_reverse] at h
    exact head_dropWhile_not l c h

/-- The line-feed membership test on a packed list of characters. -/
theorem hasNL_mk (L : List Char) : hasNL (String.mk L) = true ↔ '\n' ∈ L := by
  simp [hasNL, List.contains]

/-- A string with no line feed consists of characters other than the line
feed. -/
theorem not_mem_of_hasNL_false (s : String) (h : hasNL s = false) :
    '\n' ∉ s.data := by
  intro hmem
  have : hasNL s = true := by
    simpa [hasNL, List.contains] using hmem
  rw [h] at this
  exact Bool.false_ne_true this

/-- Splitting the head of a reply with no line feed returns the whole
reply. -/
theorem splitHead_of_hasNL_false (s : String) (h : hasNL s = false) :
    splitHead s = s := by
  unfold splitHead
  have hall : ∀ c ∈ s.data, decide (c ≠ '\n') = true := by
    intro c hc
    have hcne : c ≠ '\n' := fun hcn => not_mem_of_hasNL_false s h (hcn ▸ hc)
    simpa using hcne
  rw [takeWhile_all s.data hall]

/-- The head of the first-line split of a reply made of a line-feed-free
first part, a line feed, and a second part is the first part. -/
theorem splitHead_append_nl (a b : List Char) (ha : '\n' ∉ a) :
    splitHead (String.mk (a ++ '\n' :: b)) = String.mk a := by
  unfold splitHead
  have hall : ∀ c ∈ a, decide (c ≠ '\n') = true := by
    intro c hc
    have : c ≠ '\n' := fun hcn => ha (hcn ▸ hc)
    simpa using this
  rw [takeWhile_ne_nl_append, takeWhile_all a hall]

/-- The tail of the first-line split of a reply made of a line-feed-free
first part, a line feed, and a second part is the second part. -/
theorem splitTail_append_nl (a b : List Char) (ha : '\n' ∉ a) :
    splitTail (String.mk (a ++ '\n' :: b)) = String.mk b := by
  unfold splitTail
  have hall : ∀ c ∈ a, decide (c ≠ '\n') = true := by
    intro c hc
    have : c ≠ '\n' := fun hcn => ha (hcn ▸ hc)
    simpa using this
  rw [dropWhile_append_all a ('\n' :: b) hall, List.dropWhile_cons_of_neg] <;> simp

/-- A reply containing an explicit line feed passes the line-feed test. -/
theorem hasNL_append_nl (a b : List Char) :
    hasNL (String.mk (a ++ '\n' :: b)) = true := by
  rw [hasNL_mk]
  simp

/-- A non-blank inline code field makes the truthiness test of main.py
line 68 succeed. -/
theorem codeTruthy_of_strip_ne (code : String) (h : pyStrip code ≠ "") :
    codeTruthy (some code) = true := by
  have hne : code ≠ "" := by
    intro hc
    apply h
    rw [hc]
    rfl
  simp [codeTruthy, hne, h]

/-- An absent or blank inline code field makes the truthiness test of
main.py line 68 fail. -/
theorem codeTruthy_false_of_blank (code : Option String)
    (h : ∀ s, code = some s → pyStrip s = "") : codeTruthy code = false := by
  cases code with
  | none => rfl
  | some s => simp [codeTruthy, h s rfl]

/-- Reduction of the handler on a truthy inline code field. -/
theorem upload_inline (send_message : String → Except Unit String) (st : Store)
    (code : String) (file : Option UploadFile) (h : codeTruthy (some code) = true) :
    upload_and_generate send_message st (some code) file
      = match send_message (buildPrompt (pyStrip code)) with
        | Except.error _ =>
            { result := Except.error ApiError.upstream, store := st
              promptsSent := [buildPrompt (pyStrip code)] }
        | Except.ok result =>
            { result := Except.ok (formatReply result), store := st
              promptsSent := [buildPrompt (pyStrip code)] } := by
  unfold upload_and_generate generate_test_cases
  rw [if_pos h]
  rfl

/-- Reduction of the direct-read variant on a truthy inline code field. -/
theorem upload_direct_inline (send_message : String → Except Unit String)
    (st : Store) (code : String) (file : Option UploadFile)
    (h : codeTruthy (some code) = true) :
    upload_and_generate_direct send_message st (some code) file
      = match send_message (buildPrompt (pyStrip code)) with
        | Except.error _ =>
            { result := Except.error ApiError.upstream, store := st
              promptsSent := [buildPrompt (pyStrip code)] }
        | Except.ok result =>
            { result := Except.ok (formatReply result), store := st
              promptsSent := [buildPrompt (pyStrip code)] } := by
  unfold upload_and_generate_direct generate_test_cases
  rw [if_pos h]
  rfl

/-- Reduction of the handler on a falsy inline code field and a present
uploaded file: the file is staged, re-read, and its text is the effective
code. -/
theorem upload_file (send_message : String → Except Unit String) (st : Store)
    (code : Option String) (f : UploadFile) (h : codeTruthy code = false) :
    upload_and_generate send_message st code (some f)
      = match send_message (buildPrompt f.content) with
        | Except.error _ =>
            { result := Except.error ApiError.upstream
              store := storeWrite st f.filename f.content
              promptsSent := [buildPrompt f.content] }
        | Except.ok result =>
            { result := Except.ok (formatReply result)
              store := storeWrite st f.filename f.content
              promptsSent := [buildPrompt f.content] } := by
  unfold upload_and_generate generate_test_cases
  rw [if_neg (by simp [h])]
  simp only [storeRead, storeWrite, eq_self_iff_true, if_true]

/-- Reduction of the direct-read variant on a falsy inline code field and a
present uploaded file. -/
theorem upload_direct_file (send_message : String → Except Unit String)
    (st : Store) (code : Option String) (f : UploadFile)
    (h : codeTruthy code = false) :
    upload_and_generate_direct send_message st code (some f)
      = match send_message (buildPrompt f.content) with
        | Except.error _ =>
            { result := Except.error ApiError.upstream
              store := storeWrite st f.filename f.content
              promptsSent := [buildPrompt f.content] }
        | Except.ok result =>
            { result := Except.ok (formatReply result)
              store := storeWrite st f.filename f.content
              promptsSent := [buildPrompt f.content] } := by
  unfold upload_and_generate_direct generate_test_cases
  rw [if_neg (by simp [h])]

/-- Reduction of the handler when neither a truthy inline code field nor a
file is supplied. -/
theorem upload_no_input (send_message : String → Except Unit String)
    (st : Store) (code : Option String) (h : codeTruthy code = false) :
    upload_and_generate send_message st code none
      = { result := Except.error (ApiError.http 400 "No code or file provided")
          store := st, promptsSent := [] } := by
  unfold upload_and_generate
  rw [if_neg (by simp [h])]

/-- Reduction of the direct-read variant when neither a truthy inline code
field nor a file is supplied. -/
theorem upload_direct_no_input (send_message : String → Except Unit String)
    (st : Store) (code : Option String) (h : codeTruthy code = false) :
    upload_and_generate_direct send_message st code none
      = { result := Except.error (ApiError.http 400 "No code or file provided")
          store := st, promptsSent := [] } := by
  unfold upload_and_generate_direct
  rw [if_neg (by simp [h])]

/-! Claim theorems. -/

/-- C1 (amended): the response is formed by splitting the reply on the
first line break and stripping: the count field is the stripped portion
before the first line break and the cases field is the stripped portion
after it; when the reply contains no line break, both fields equal the
stripped entire reply.  In particular, reply 3 then Case1..Case3 on
following lines yields count 3 and the three cases, and a reply with no
line break is duplicated into both fields. -/
theorem claim_C1 :
    (∀ reply : String, formatReply reply
        = { num_test_cases := pyStrip (splitHead reply)
            test_cases := pyStrip (if hasNL reply then splitTail reply else reply) })
    ∧ (∀ a b : List Char, '\n' ∉ a →
        splitHead (String.mk (a ++ '\n' :: b)) = String.mk a
        ∧ splitTail (String.mk (a ++ '\n' :: b)) = String.mk b
        ∧ formatReply (String.mk (a ++ '\n' :: b))
            = { num_test_cases := pyStrip (String.mk a)
                test_cases := pyStrip (String.mk b) })
    ∧ (∀ reply : String, hasNL reply = false →
        formatReply reply
          = { num_test_cases := pyStrip reply, test_cases := pyStrip reply })
    ∧ formatReply "3\nCase1\nCase2\nCase3"
        = { num_test_cases := "3", test_cases := "Case1\nCase2\nCase3" }
    ∧ formatReply "No tests needed"
        = { num_test_cases := "No tests needed", test_cases := "No tests needed" } := by
  refine ⟨fun reply => rfl, ?_, ?_, by decide, by decide⟩
  · intro a b ha
    have h1 := splitHead_append_nl a b ha
    have h2 := splitTail_append_nl a b ha
    refine ⟨h1, h2, ?_⟩
    unfold formatReply
    rw [h1, h2, hasNL_append_nl]
    simp
  · intro reply h
    unfold formatReply
    rw [splitHead_of_hasNL_false reply h, h]
    simp

/-- C1 counterexample: as frozen, the claim says the count field IS the
portion before the first line break and that a break-free reply is
returned whole in both fields; the handler strips both fields, so a reply
with whitespace around its first line violates the claim as stated. -/
theorem claim_C1_counterexample :
    (formatReply " 3 \nCase").num_test_cases ≠ splitHead " 3 \nCase"
    ∧ splitHead " 3 \nCase" = " 3 "
    ∧ (formatReply " 3 \nCase").num_test_cases = "3"
    ∧ (formatReply " x ").test_cases ≠ " x " := by decide

/-- C1 witness: the amended split evaluated on a concrete two-line reply
and a concrete break-free reply. -/
theorem claim_C1_witness :
    (splitHead (String.mk ("7".data ++ '\n' :: "ok".data)) = String.mk "7".data
      ∧ splitTail (String.mk ("7".data ++ '\n' :: "ok".data)) = String.mk "ok".data
      ∧ formatReply (String.mk ("7".data ++ '\n' :: "ok".data))
          = { num_test_cases := pyStrip (String.mk "7".data)
              test_cases := pyStrip (String.mk "ok".data) })
    ∧ formatReply "done"
        = { num_test_cases := pyStrip "done", test_cases := pyStrip "done" } :=
  ⟨claim_C1.2.1 "7".data "ok".data (by decide),
   claim_C1.2.2.1 "done" (by decide)⟩

/-- C8: the num_test_cases field never contains a line break: it is the
stripped portion of the reply before the first line break, and that
portion is the whole reply when the reply has no line break. -/
theorem claim_C8 (reply : String) :
    '\n' ∉ (formatReply reply).num_test_cases.data
    ∧ (formatReply reply).num_test_cases = pyStrip (splitHead reply)
    ∧ (hasNL reply = false → splitHead reply = reply) := by
  refine ⟨?_, rfl, fun h => splitHead_of_hasNL_false reply h⟩
  intro hmem
  have h1 : '\n' ∈ pyStripL (splitHead reply).data := hmem
  have h2 := mem_of_mem_pyStripL _ _ h1
  have h3 := List.mem_takeWhile_imp h2
  simp at h3

/-- C8 witness: evaluation on a concrete break-free reply. -/
theorem claim_C8_witness :
    '\n' ∉ (formatReply "abc").num_test_cases.data ∧ splitHead "abc" = "abc" :=
  ⟨(claim_C8 "abc").1, (claim_C8 "abc").2.2 (by decide)⟩

/-- C4 (amended): both returned fields are stripped of leading and
trailing whitespace (their first and last characters, when present, are
never whitespace); and for a reply built by adding whitespace around each
half of a two-part reply, the count field equals the trimmed first half
and the cases field equals the trimmed second half, provided the
whitespace added before the first half contains no line break (a leading
blank line moves the first line break and shifts the split). -/
theorem claim_C4 :
    (∀ reply : String,
        (∀ c : Char, (formatReply reply).num_test_cases.data.head? = some c →
            pyIsSpace c = false)
        ∧ (∀ c : Char, (formatReply reply).num_test_cases.data.getLast? = some c →
            pyIsSpace c = false)
        ∧ (∀ c : Char, (formatReply reply).test_cases.data.head? = some c →
            pyIsSpace c = false)
        ∧ (∀ c : Char, (formatReply reply).test_cases.data.getLast? = some c →
            pyIsSpace c = false))
    ∧ (∀ ws1 a ws2 ws3 b ws4 : List Char,
        (∀ c ∈ ws1, pyIsSpace c = true) → '\n' ∉ ws1 → '\n' ∉ a →
        (∀ c ∈ ws2, pyIsSpace c = true) →
        (∀ c ∈ ws3, pyIsSpace c = true) →
        (∀ c ∈ ws4, pyIsSpace c = true) →
        formatReply (String.mk (ws1 ++ (a ++ (ws2 ++ '\n' :: (ws3 ++ (b ++ ws4))))))
          = { num_test_cases := pyStrip (String.mk a)
              test_cases := pyStrip (String.mk b) }) := by
  constructor
  · intro reply
    exact ⟨fun c hc => pyStripL_head_not_space _ c hc,
      fun c hc => pyStripL_getLast_not_space _ c hc,
      fun c hc => pyStripL_head_not_space _ c hc,
      fun c hc => pyStripL_getLast_not_space _ c hc⟩
  · intro ws1 a ws2 ws3 b ws4 hw1 hn1 hna hw2 hw3 hw4
    have hq1 : ∀ c ∈ ws1, decide (c ≠ '\n') = true := by
      intro c hc
      have : c ≠ '\n' := fun hcn => hn1 (hcn ▸ hc)
      simpa using this
    have hqa : ∀ c ∈ a, decide (c ≠ '\n') = true := by
      intro c hc
      have : c ≠ '\n' := fun hcn => hna (hcn ▸ hc)
      simpa using this
    have hhead :
        splitHead (String.mk (ws1 ++ (a ++ (ws2 ++ '\n' :: (ws3 ++ (b ++ ws4))))))
          = String.mk (ws1 ++ (a ++ List.takeWhile (fun c => c ≠ '\n') ws2)) := by
      unfold splitHead
      rw [takeWhile_append_all ws1 _ hq1, takeWhile_append_all a _ hqa,
        takeWhile_ne_nl_append ws2 (ws3 ++ (b ++ ws4))]
    have hnum :
        pyStrip (splitHead (String.mk
            (ws1 ++ (a ++ (ws2 ++ '\n' :: (ws3 ++ (b ++ ws4)))))))
          = pyStrip (String.mk a) := by
      rw [hhead]
      unfold pyStrip
      have htw : ∀ c ∈ List.takeWhile (fun c => c ≠ '\n') ws2, pyIsSpace c = true :=
        fun c hc => hw2 c ((List.takeWhile_sublist _).mem hc)
      have : pyStripL (ws1 ++ (a ++ List.takeWhile (fun c => c ≠ '\n') ws2))
          = pyStripL a := by
        rw [pyStripL_ws_left ws1 _ hw1,
          pyStripL_ws_right a _ htw]
      rw [this]
    obtain ⟨w0, hw0, heq⟩ := drop_one_dropWhile_ne_nl ws2 (ws3 ++ (b ++ ws4)) hw2
    have htail :
        (splitTail (String.mk
            (ws1 ++ (a ++ (ws2 ++ '\n' :: (ws3 ++ (b ++ ws4))))))).data
          = w0 ++ (ws3 ++ (b ++ ws4)) := by
      show (List.dropWhile (fun c => c ≠ '\n')
          (ws1 ++ (a ++ (ws2 ++ '\n' :: (ws3 ++ (b ++ ws4)))))).drop 1
        = w0 ++ (ws3 ++ (b ++ ws4))
      rw [dropWhile_append_all ws1 _ hq1, dropWhile_append_all a _ hqa]
      exact heq
    have hNL : hasNL (String.mk (ws1 ++ (a ++ (ws2 ++ '\n' :: (ws3 ++ (b ++ ws4))))))
        = true := by
      rw [hasNL_mk]
      simp
    have hcases :
        pyStrip (splitTail (String.mk
            (ws1 ++ (a ++ (ws2 ++ '\n' :: (ws3 ++ (b ++ ws4)))))))
          = pyStrip (String.mk b) := by
      unfold pyStrip
      rw [htail]
      have : pyStripL (w0 ++ (ws3 ++ (b ++ ws4))) = pyStripL b := by
        rw [pyStripL_ws_left w0 _ hw0, pyStripL_ws_left ws3 _ hw3,
          pyStripL_ws_right b _ hw4]
      rw [this]
    unfold formatReply
    rw [hnum, hNL]
    simp only [if_true]
    rw [hcases]

/-- C4 counterexample: a reply built by adding a leading blank line before
the first half of the two-part reply 3 then Case1 does not yield the
trimmed halves: the handler returns an empty count field instead of 3,
because the added blank line becomes the first line break. -/
theorem claim_C4_counterexample :
    (formatReply "\n3\nCase1").num_test_cases = ""
    ∧ (formatReply "\n3\nCase1").num_test_cases ≠ pyStrip "3"
    ∧ (formatReply "\n3\nCase1").test_cases ≠ pyStrip "Case1" := by decide

/-- C4 witness: the whitespace-sandwich equation evaluated on a concrete
reply with spaces around the first half and a blank line plus trailing
space around the second half, and the edge-character property evaluated
on a concrete stripped field. -/
theorem claim_C4_witness :
    formatReply (String.mk ([' '] ++ ("3".data ++ ([' ']
        ++ '\n' :: (['\n'] ++ ("Case".data ++ [' ']))))))
      = { num_test_cases := pyStrip (String.mk "3".data)
          test_cases := pyStrip (String.mk "Case".data) }
    ∧ pyIsSpace 'x' = false :=
  ⟨claim_C4.2 [' '] "3".data [' '] ['\n'] "Case".data [' ']
      (by decide) (by decide) (by decide) (by decide) (by decide) (by decide),
   (claim_C4.1 " x").1 'x' (by decide)⟩

/-- C2: when the inline code field is non-blank, the file field is ignored
entirely (the outcome does not depend on it), no file is written to the
staging directory, and the effective code embedded in the prompt is taken
from the code field. -/
theorem claim_C2 (send_message : String → Except Unit String) (st : Store)
    (code : String) (file : Option UploadFile) (h : pyStrip code ≠ "") :
    upload_and_generate send_message st (some code) file
      = upload_and_generate send_message st (some code) none
    ∧ (upload_and_generate send_message st (some code) file).store = st
    ∧ (upload_and_generate send_message st (some code) file).promptsSent
        = [buildPrompt (pyStrip code)] := by
  have hT := codeTruthy_of_strip_ne code h
  refine ⟨?_, ?_, ?_⟩
  · rw [upload_inline send_message st code file hT,
      upload_inline send_message st code none hT]
  · rw [upload_inline send_message st code file hT]
    cases hs : send_message (buildPrompt (pyStrip code)) <;> rfl
  · rw [upload_inline send_message st code file hT]
    cases hs : send_message (buildPrompt (pyStrip code)) <;> rfl

/-- C2 witness: a concrete request carrying both a non-blank code field
and a file behaves exactly like the same request without the file. -/
theorem claim_C2_witness :
    upload_and_generate (constSend "2\nA") emptyStore (some "x")
        (some { filename := "f.py", content := "y" })
      = upload_and_generate (constSend "2\nA") emptyStore (some "x") none
    ∧ (upload_and_generate (constSend "2\nA") emptyStore (some "x")
        (some { filename := "f.py", content := "y" })).store = emptyStore
    ∧ (upload_and_generate (constSend "2\nA") emptyStore (some "x")
        (some { filename := "f.py", content := "y" })).promptsSent
        = [buildPrompt (pyStrip "x")] :=
  claim_C2 (constSend "2\nA") emptyStore "x" (some ⟨"f.py", "y"⟩) (by decide)

/-- C3: when neither a non-blank code field nor a file is supplied, the
handler fails with HTTP status 400 and detail No code or file provided,
the staging directory is untouched, and no prompt is sent to the remote
service. -/
theorem claim_C3 (send_message : String → Except Unit String) (st : Store)
    (code : Option String) (h : ∀ s, code = some s → pyStrip s = "") :
    upload_and_generate send_message st code none
      = { result := Except.error (ApiError.http 400 "No code or file provided")
          store := st, promptsSent := [] } :=
  upload_no_input send_message st code (codeTruthy_false_of_blank code h)

/-- C3 witness: a concrete request with a blank code field and no file. -/
theorem claim_C3_witness :
    upload_and_generate (constSend "2\nA") emptyStore (some "  ") none
      = { result := Except.error (ApiError.http 400 "No code or file provided")
          store := emptyStore, promptsSent := [] } :=
  claim_C3 (constSend "2\nA") emptyStore (some "  ")
    (by intro s hs; injection hs with h2; subst h2; decide)

/-- C5: the storage round-trip is functionally equivalent to reading the
uploaded bytes directly: the handler equals the direct-read variant on
every request, and re-reading the staged entry returns exactly the
uploaded contents. -/
theorem claim_C5 (send_message : String → Except Unit String) (st : Store)
    (code : Option String) (file : Option UploadFile) :
    upload_and_generate send_message st code file
      = upload_and_generate_direct send_message st code file
    ∧ ∀ (st2 : Store) (f : UploadFile),
        storeRead (storeWrite st2 f.filename f.content) f.filename
          = some f.content := by
  constructor
  · by_cases hc : codeTruthy code = true
    · cases code with
      | none => simp [codeTruthy] at hc
      | some s =>
        rw [upload_inline send_message st s file hc,
          upload_direct_inline send_message st s file hc]
    · have hcf : codeTruthy code = false := Bool.eq_false_iff.mpr hc
      cases file with
      | none =>
        rw [upload_no_input send_message st code hcf,
          upload_direct_no_input send_message st code hcf]
      | some f =>
        rw [upload_file send_message st code f hcf,
          upload_direct_file send_message st code f hcf]
  · intro st2 f
    unfold storeRead storeWrite
    simp

/-- C6: the staged file written under the original filename has exactly
the uploaded contents, both in general and on a concrete upload whose
contents are X. -/
theorem claim_C6 (send_message : String → Except Unit String) (st : Store)
    (code : Option String) (f : UploadFile) (h : codeTruthy code = false) :
    storeRead ((upload_and_generate send_message st code (some f)).store)
        f.filename = some f.content
    ∧ storeRead ((upload_and_generate (constSend "r") emptyStore none
        (some { filename := "a.py", content := "X" })).store) "a.py"
        = some "X" := by
  constructor
  · rw [upload_file send_message st code f h]
    cases hs : send_message (buildPrompt f.content) <;>
      · unfold storeRead storeWrite
        simp
  · rw [upload_file (constSend "r") emptyStore none ⟨"a.py", "X"⟩ rfl]
    unfold constSend storeRead storeWrite
    simp

/-- C6 witness: concrete uploads staged under their filenames. -/
theorem claim_C6_witness :
    storeRead ((upload_and_generate failSend emptyStore none
        (some { filename := "f.py", content := "pass" })).store) "f.py"
        = some "pass"
    ∧ storeRead ((upload_and_generate (constSend "r") emptyStore none
        (some { filename := "a.py", content := "X" })).store) "a.py"
        = some "X" :=
  claim_C6 failSend emptyStore none ⟨"f.py", "pass"⟩ rfl

/-- C7: the prompt sent to the remote service is the concatenation, in
fixed order, of the role instruction, the task instruction, the two
output-formatting instructions, the effective code string, and the
closing instruction: the code appears between a fixed instruction block
and a fixed closing block. -/
theorem claim_C7 (send_message : String → Except Unit String)
    (code_input : String) :
    generate_test_cases send_message code_input
      = send_message ((roleInstr ++ taskInstr ++ numberInstr ++ windowInstr)
          ++ code_input ++ ("\n\n" ++ closingInstr))
    ∧ buildPrompt code_input
      = (roleInstr ++ taskInstr ++ numberInstr ++ windowInstr)
          ++ code_input ++ ("\n\n" ++ closingInstr) := by
  have hb : buildPrompt code_input
      = (roleInstr ++ taskInstr ++ numberInstr ++ windowInstr)
          ++ code_input ++ ("\n\n" ++ closingInstr) := by
    unfold buildPrompt
    simp [String.append_assoc]
  exact ⟨by unfold generate_test_cases; rw [hb], hb⟩

/-- C9: the staging write happens before the remote call, so when the
remote call fails the outcome is an upstream error, yet the staged file
is still present in the staging directory and the prompt was sent: the
side effect is not rolled back. -/
theorem claim_C9 (send_message : String → Except Unit String) (st : Store)
    (f : UploadFile)
    (h : send_message (buildPrompt f.content) = Except.error ()) :
    (upload_and_generate send_message st none (some f)).result
        = Except.error ApiError.upstream
    ∧ storeRead ((upload_and_generate send_message st none (some f)).store)
        f.filename = some f.content
    ∧ (upload_and_generate send_message st none (some f)).promptsSent
        = [buildPrompt f.content] := by
  rw [upload_file send_message st none f rfl, h]
  refine ⟨rfl, ?_, rfl⟩
  unfold storeRead storeWrite
  simp

/-- C9 witness: a concrete upload whose remote call fails leaves the
staged file on disk. -/
theorem claim_C9_witness :
    (upload_and_generate failSend emptyStore none
        (some { filename := "a.py", content := "X" })).result
        = Except.error ApiError.upstream
    ∧ storeRead ((upload_and_generate failSend emptyStore none
        (some { filename := "a.py", content := "X" })).store) "a.py"
        = some "X"
    ∧ (upload_and_generate failSend emptyStore none
        (some { filename := "a.py", content := "X" })).promptsSent
        = [buildPrompt "X"] :=
  claim_C9 failSend emptyStore ⟨"a.py", "X"⟩ rfl

set_option maxRecDepth 40000 in
/-- C10: the effective code is stripped only in the inline case: a
non-blank code field is embedded stripped, while an uploaded file's text
is embedded verbatim; the prompt built from text with surrounding
whitespace differs from the prompt built from its stripped form. -/
theorem claim_C10 (send_message : String → Except Unit String) (st : Store) :
    (∀ (code : String) (file : Option UploadFile), pyStrip code ≠ "" →
        (upload_and_generate send_message st (some code) file).promptsSent
          = [buildPrompt (pyStrip code)])
    ∧ (∀ (code : Option String) (f : UploadFile), codeTruthy code = false →
        (upload_and_generate send_message st code (some f)).promptsSent
          = [buildPrompt f.content])
    ∧ buildPrompt " x " ≠ buildPrompt (pyStrip " x ") := by
  refine ⟨?_, ?_, by decide⟩
  · intro code file h
    rw [upload_inline send_message st code file (codeTruthy_of_strip_ne code h)]
    cases hs : send_message (buildPrompt (pyStrip code)) <;> rfl
  · intro code f h
    rw [upload_file send_message st code f h]
    cases hs : send_message (buildPrompt f.content) <;> rfl

/-- C10 witness: a concrete inline request embeds the stripped code, a
concrete file request embeds the contents verbatim. -/
theorem claim_C10_witness :
    (upload_and_generate (constSend "r") emptyStore (some " y ") none).promptsSent
      = [buildPrompt (pyStrip " y ")]
    ∧ (upload_and_generate (constSend "r") emptyStore none
        (some { filename := "a", content := " b " })).promptsSent
      = [buildPrompt " b "] :=
  ⟨(claim_C10 (constSend "r") emptyStore).1 " y " none (by decide),
   (claim_C10 (constSend "r") emptyStore).2.1 none ⟨"a", " b "⟩ rfl⟩

end TestCaseGen
